import Mathlib

/-!
Verification of the SROMPy specification against the repository code.

Numeric computations are embedded over the rationals. Code present under
the repository (the postprocessing module, its example driver and the test
suites) is translated directly; components whose implementation files are
absent from the repository snapshot (DiscreteRandomVector, Gradient, SROM)
are modelled from the specification text, as marked in each doc comment.
-/

namespace SROMPy

/-- Weighted power sum of the entries in dimension `d` of a sample matrix:
the probability-weighted sum of the `q`-th powers of the samples, one row
per sample point. -/
def weightedPowerSum (samples : List (List ℚ)) (probs : List ℚ)
    (d : Nat) (q : Nat) : ℚ :=
  ((samples.zip probs).map (fun sp => sp.2 * (sp.1.getD d 0) ^ q)).sum

/-- Weighted count (with probability weights) of sample points whose
coordinate in dimension `d` is less than or equal to `x`. -/
def weightedCountLE (samples : List (List ℚ)) (probs : List ℚ)
    (d : Nat) (x : ℚ) : ℚ :=
  ((samples.zip probs).map
    (fun sp => if sp.1.getD d 0 ≤ x then sp.2 else 0)).sum

/-- A sample array as passed to the DiscreteRandomVector constructor:
either a flat length-N array (scalar dimension) or an N x d matrix. -/
inductive SampleArray where
  | flat : List ℚ → SampleArray
  | twoD : List (List ℚ) → SampleArray

/-- Modelled from the spec: a DiscreteRandomVector (its implementation file
is absent from the snapshot; only its tests are present) is a finite-support
random vector given by samples (N x d, or flat length N for d = 1) and
probabilities (length N, non-negative, summing to 1 within tolerance). -/
structure DiscreteRandomVector where
  dim : Nat
  samples : List (List ℚ)
  probabilities : List ℚ

/-- Tolerance for the probability-sum check, per the spec (1e-8). -/
def probSumTolerance : ℚ := 1 / 100000000

/-- Number of rows of a sample array. -/
def SampleArray.numSamples : SampleArray → Nat
  | .flat s => s.length
  | .twoD s => s.length

/-- Dimension inferred from a sample array (first row length for 2-D). -/
def SampleArray.inferredDim : SampleArray → Nat
  | .flat _ => 1
  | .twoD s => (s.headD []).length

/-- Rows of a sample array as an N x d matrix. -/
def SampleArray.rows : SampleArray → List (List ℚ)
  | .flat s => s.map (fun x => [x])
  | .twoD s => s

/-- A 2-D sample array is well shaped when every row has the common length
and that length is positive. -/
def SampleArray.wellShaped : SampleArray → Bool
  | .flat _ => true
  | .twoD s => s.all (fun row => row.length = (s.headD []).length)
      && 0 < (s.headD []).length

/-- Modelled from the spec: construction validation of DiscreteRandomVector.
The probability array length must equal the number of samples, the
probabilities must be non-negative and sum to 1 within tolerance 1e-8, and
the sample array must be a flat length-N array or a well-shaped N x d
matrix; any violation fails with a validation error and no object is
produced. -/
def DiscreteRandomVector.mk? (samples : SampleArray) (probs : List ℚ) :
    Except String DiscreteRandomVector :=
  if probs.length ≠ samples.numSamples then
    .error "ValueError: probability array length must equal number of samples"
  else if ¬ |probs.sum - 1| ≤ probSumTolerance then
    .error "ValueError: probabilities must sum to 1"
  else if ¬ probs.all (fun p => 0 ≤ p) then
    .error "ValueError: probabilities must be non-negative"
  else if ¬ samples.wellShaped then
    .error "ValueError: sample array must be length N or N x d"
  else
    .ok ⟨samples.inferredDim, samples.rows, probs⟩

/-- Modelled from the spec: moments of order 1..max_order per dimension,
each the probability-weighted sum of sample powers; row `q-1` of the result
holds the order-`q` moments for each dimension. -/
def DiscreteRandomVector.compute_moments (rv : DiscreteRandomVector)
    (maxOrder : Nat) : List (List ℚ) :=
  (List.range maxOrder).map (fun q =>
    (List.range rv.dim).map (fun d =>
      weightedPowerSum rv.samples rv.probabilities d (q + 1)))

/-- Modelled from the spec: the CDF at a grid point x is the sum of the
probabilities of the support points that are ≤ x, independently per
dimension; one output row per grid point, one column per dimension. -/
def DiscreteRandomVector.compute_CDF (rv : DiscreteRandomVector)
    (grid : List ℚ) : List (List ℚ) :=
  grid.map (fun x =>
    (List.range rv.dim).map (fun d =>
      weightedCountLE rv.samples rv.probabilities d x))

/-- The 1-D test fixture: samples 1,2,3,4 with uniform probabilities. -/
def fixture1dSamples : SampleArray := .flat [1, 2, 3, 4]

/-- Uniform probabilities for four samples. -/
def fixtureProbs : List ℚ := [1/4, 1/4, 1/4, 1/4]

/-- The 2-D test fixture samples. -/
def fixture2dSamples : SampleArray := .twoD [[1, 4], [2, 5], [3, 6], [4, 7]]

/-- Modelled from the spec: the fixed recognized set of error metric names
accepted by the Objective and Gradient constructors (mean-squared, mean,
max). -/
def recognizedErrorNames : List String := ["mean-squared", "mean", "max"]

/-- Modelled from the spec: default per-class objective weights (length 3,
one weight per statistic class: moments, CDF, correlation). -/
def defaultObjWeights : List ℚ := [1, 1, 1]

/-- Modelled from the spec: default error metric name. -/
def defaultError : String := "mean-squared"

/-- Validated Gradient constructor configuration. -/
structure GradientConfig where
  objWeights : List ℚ
  errorName : String

/-- Modelled from the spec: Gradient constructor validation (its
implementation file is absent from the snapshot; only its test is
present). If provided, obj_weights must have length 3, else a validation
error; the error metric name must be in the recognized set, else a
validation error; defaults succeed. -/
def Gradient.mk? (objWeights : Option (List ℚ)) (errorName : Option String) :
    Except String GradientConfig :=
  let w := objWeights.getD defaultObjWeights
  let e := errorName.getD defaultError
  if w.length ≠ 3 then
    .error "ValueError: obj_weights must have length 3"
  else if ¬ recognizedErrorNames.contains e then
    .error "ValueError: unrecognized error metric name"
  else
    .ok ⟨w, e⟩

/-- Modelled from the spec: an SROM of size m and dimension d owns an
m x d matrix of sample points and a length-m weight vector. -/
structure SROM where
  size : Nat
  dim : Nat
  points : List (List ℚ)
  weights : List ℚ

/-- Modelled from the spec: SROM.load_params reads an m x (d+1) table
(d coordinate columns followed by one weight column) and populates the
points and weights; it fails if the row count is not m or any row does not
have d+1 columns. -/
def SROM.load_params (size dim : Nat) (table : List (List ℚ)) :
    Except String SROM :=
  if table.length ≠ size then
    .error "ValueError: parameter file row count must equal SROM size"
  else if ¬ table.all (fun row => row.length = dim + 1) then
    .error "ValueError: parameter file column count must equal dim + 1"
  else
    .ok ⟨size, dim, table.map (fun row => row.take dim),
         table.map (fun row => row.getD dim 0)⟩

/-- SROM moments, computed the same way as DiscreteRandomVector moments
over the SROM points and weights. -/
def SROM.compute_moments (s : SROM) (maxOrder : Nat) : List (List ℚ) :=
  (List.range maxOrder).map (fun q =>
    (List.range s.dim).map (fun d =>
      weightedPowerSum s.points s.weights d (q + 1)))

/-- SROM CDF, computed the same way as the DiscreteRandomVector CDF over
the SROM points and weights. -/
def SROM.compute_CDF (s : SROM) (grid : List ℚ) : List (List ℚ) :=
  grid.map (fun x =>
    (List.range s.dim).map (fun d =>
      weightedCountLE s.points s.weights d x))

/-- Weighted covariance of dimensions i and j of a weighted point set. -/
def weightedCov (samples : List (List ℚ)) (probs : List ℚ) (i j : Nat) : ℚ :=
  ((samples.zip probs).map
    (fun sp => sp.2 * (sp.1.getD i 0) * (sp.1.getD j 0))).sum
    - weightedPowerSum samples probs i 1 * weightedPowerSum samples probs j 1

/-- Modelled from the spec: the d x d Pearson correlation matrix of a
weighted point set (covariance normalized by the standard deviations). -/
noncomputable def SROM.compute_correlation_matrix (s : SROM) :
    List (List ℝ) :=
  (List.range s.dim).map (fun i =>
    (List.range s.dim).map (fun j =>
      (weightedCov s.points s.weights i j : ℝ) /
        (Real.sqrt (weightedCov s.points s.weights i i) *
         Real.sqrt (weightedCov s.points s.weights j j))))

/-- A target random vector as consumed by the Postprocessor: a dimension
together with per-dimension minima and maxima. -/
structure Target where
  dim : Nat
  mins : List ℚ
  maxs : List ℚ

/-- numpy.linspace over the rationals: n points from a to b inclusive,
point i at a + i * (b - a) / (n - 1); for n = 1 this yields the single
point a (the rational division by zero is zero). -/
def linspace (a b : ℚ) (n : Nat) : List ℚ :=
  (List.range n).map (fun i : Nat => a + (i : ℚ) * (b - a) / ((n : ℚ) - 1))

/-- Postprocessor.generate_cdf_grids: one evenly spaced grid per dimension
of the target, from the per-dimension minimum to the per-dimension maximum,
with cdf_grid_pts points each. The source builds a cdf_grid_pts x dim array
column by column; the embedding holds the list of columns. -/
def Postprocessor.generate_cdf_grids (t : Target) (pts : Nat) :
    List (List ℚ) :=
  (List.range t.dim).map (fun i =>
    linspace (t.mins.getD i 0) (t.maxs.getD i 0) pts)

/-- The first three statements of Postprocessor.compare_CDFs: build the
CDF grids from the target range, then evaluate the SROM CDF and the target
CDF, both on that same grid. The two CDF computations are passed in as
functions of the grid. -/
def Postprocessor.compareCDFs_data
    (sromCDF targetCDF : List (List ℚ) → List (List ℚ)) (t : Target) :
    List (List ℚ) × List (List ℚ) × List (List ℚ) :=
  let xgrids := Postprocessor.generate_cdf_grids t 1000
  (xgrids, sromCDF xgrids, targetCDF xgrids)

/-- The variable-name resolution common to Postprocessor.compare_CDFs and
Postprocessor.compare_srom_CDFs (the two methods contain identical code
for this step): an explicit list whose length differs from the dimension
raises ValueError; when no list is given, default names are generated (the
bare variable name when dim = 1, else the variable name suffixed with the
1-based dimension index). -/
def Postprocessor.getVariableNames (varName : String) (dim : Nat)
    (variablenames : Option (List String)) : Except String (List String) :=
  match variablenames with
  | some names =>
      if names.length ≠ dim then
        .error "ValueError: Wrong number of variable names provided"
      else .ok names
  | none =>
      .ok ((List.range dim).map (fun i =>
        if dim = 1 then varName else varName ++ "_" ++ toString (i + 1)))

/-- Python string concatenation where the left operand may be None:
None + str raises TypeError. -/
def pythonStrAdd : Option String → String → Except String String
  | none, _ => .error "TypeError: unsupported operand types for NoneType and str"
  | some s, t => .ok (s ++ t)

/-- The per-dimension loop of Postprocessor.compare_CDFs restricted to its
plot-name computation: each iteration concatenates the plot name (None
when saveFig was false) with the dimension variable name and removes the
dollar characters. -/
def Postprocessor.buildPlotNames (plotname : Option String) :
    List String → Except String (List String)
  | [] => .ok []
  | v :: rest =>
    match pythonStrAdd plotname ("_" ++ v ++ ".pdf") with
    | .error msg => .error msg
    | .ok p =>
      match Postprocessor.buildPlotNames plotname rest with
      | .error msg => .error msg
      | .ok others => .ok ((p.replace "$" "") :: others)

/-- Postprocessor.compare_CDFs, restricted to its control flow and string
computations (the plotting calls are presentation-only): the plot name is
the joined path when saveFig, else None; the variable names are resolved;
the per-dimension loop then concatenates the plot name with each variable
name. -/
def Postprocessor.compare_CDFs_run (t : Target)
    (varName plotdir plotsuffixArg : String) (saveFig : Bool)
    (variablenames : Option (List String)) : Except String (List String) :=
  let plotname : Option String :=
    if saveFig then some (plotdir ++ "/" ++ plotsuffixArg) else none
  match Postprocessor.getVariableNames varName t.dim variablenames with
  | .error msg => .error msg
  | .ok names => Postprocessor.buildPlotNames plotname names

/-- OrderedDict assignment: replace in place when the key is present,
append otherwise. -/
def odInsert {β : Type} (l : List (Nat × β)) (k : Nat) (v : β) :
    List (Nat × β) :=
  if l.any (fun p => p.1 = k) then
    l.map (fun p => if p.1 = k then (k, v) else p)
  else l ++ [(k, v)]

/-- The sromCDFs OrderedDict built by Postprocessor.compare_srom_CDFs:
iterating the size-to-SROM mapping in its insertion order, each SROM CDF
is computed on the shared grid and assigned under its size key. Each SROM
is embedded as its compute_CDF function. -/
def Postprocessor.sromCDFsOf
    (size2srom : List (Nat × (List (List ℚ) → List (List ℚ))))
    (t : Target) : List (Nat × List (List ℚ)) :=
  size2srom.foldl
    (fun acc p => odInsert acc p.1 (p.2 (Postprocessor.generate_cdf_grids t 1000)))
    []

/-- The order in which Postprocessor.compare_srom_CDFs renders the SROM
series: its plotting loop iterates the keys of the sromCDFs OrderedDict. -/
def Postprocessor.plottedSizeOrder
    (size2srom : List (Nat × (List (List ℚ) → List (List ℚ))))
    (t : Target) : List Nat :=
  (Postprocessor.sromCDFsOf size2srom t).map Prod.fst

/-- The keyword parameters of Postprocessor.compare_srom_CDFs, read off
its def statement in the source. -/
def Postprocessor.compare_srom_CDFs_keywords : List String :=
  ["size2srom", "target", "variable", "plotdir", "plotsuffix",
   "showFig", "saveFig", "variablenames", "xlimits"]

/-- Whether a Python call whose keyword argument names are given would be
accepted by Postprocessor.compare_srom_CDFs: every keyword must be a
parameter of the method, else the call raises TypeError. -/
def Postprocessor.acceptsSromCDFsCall (kwargs : List String) : Bool :=
  kwargs.all (fun k => Postprocessor.compare_srom_CDFs_keywords.contains k)

/-- The keyword argument names of the compare_srom_CDFs call in the
example driver compare_pwconst_srom_eol_CDFs.py. -/
def phm18ExampleKwargs : List String :=
  ["plotdir", "plotsuffix", "variablenames", "xlimits", "ylimits",
   "xticks", "cdfylabel", "xaxispadding", "axisfontsize",
   "labelfontsize", "legendfontsize"]

lemma sum_ite_eq_filter_sum {α : Type} (l : List α) (p : α → Prop)
    [DecidablePred p] (f : α → ℚ) :
    (l.map (fun a => if p a then f a else 0)).sum =
      ((l.filter (fun a => decide (p a))).map f).sum := by
  induction l with
  | nil => simp
  | cons hd tl ih =>
    by_cases h : p hd <;> simp [List.filter_cons, h, ih]

lemma weightedCountLE_eq_filter_sum (samples : List (List ℚ))
    (probs : List ℚ) (d : Nat) (x : ℚ) :
    weightedCountLE samples probs d x =
      (((samples.zip probs).filter
          (fun sp => decide (sp.1.getD d 0 ≤ x))).map (fun sp => sp.2)).sum := by
  unfold weightedCountLE
  exact sum_ite_eq_filter_sum _ _ _

lemma getD_map_range {β : Type} (n i : Nat) (f : Nat → β) (b : β)
    (h : i < n) :
    ((List.range n).map f).getD i b = f i := by
  rw [List.getD_eq_getElem?_getD]
  simp [List.getElem?_map, List.getElem?_range, h]

/-- C1: for every DiscreteRandomVector, compute_CDF at a grid point x is
the probability-weighted count of support points ≤ x (ties at exact
equality included), independently per dimension; for the 1-D fixture with
samples 1,2,3,4 and uniform probabilities the CDF at the grid
0.5, 1.5, 2.5, 3.5, 4.5 is 0, 0.25, 0.5, 0.75, 1.0, and at the support
point 1 itself it is 0.25 (≤ semantics); the 2-D fixture matches its test
values as well. -/
theorem C1_compute_CDF_le_semantics :
    (∀ (samples : List (List ℚ)) (probs : List ℚ) (d : Nat) (x : ℚ),
      weightedCountLE samples probs d x =
        (((samples.zip probs).filter
            (fun sp => decide (sp.1.getD d 0 ≤ x))).map (fun sp => sp.2)).sum)
    ∧ DiscreteRandomVector.mk? fixture1dSamples fixtureProbs =
        .ok ⟨1, [[1], [2], [3], [4]], fixtureProbs⟩
    ∧ DiscreteRandomVector.compute_CDF ⟨1, [[1], [2], [3], [4]], fixtureProbs⟩
        [1/2, 3/2, 5/2, 7/2, 9/2] = [[0], [1/4], [1/2], [3/4], [1]]
    ∧ DiscreteRandomVector.compute_CDF ⟨1, [[1], [2], [3], [4]], fixtureProbs⟩
        [1] = [[1/4]]
    ∧ DiscreteRandomVector.compute_CDF
        ⟨2, [[1, 4], [2, 5], [3, 6], [4, 7]], fixtureProbs⟩
        [1/2, 5/2, 9/2, 13/2, 15/2] =
        [[0, 0], [1/2, 0], [1, 1/4], [1, 3/4], [1, 1]] := by
  refine ⟨weightedCountLE_eq_filter_sum, ?_, ?_, ?_, ?_⟩
  · norm_num [DiscreteRandomVector.mk?, fixture1dSamples, fixtureProbs,
      probSumTolerance, SampleArray.numSamples, SampleArray.wellShaped,
      SampleArray.rows, SampleArray.inferredDim]
  · norm_num [DiscreteRandomVector.compute_CDF, weightedCountLE,
      fixtureProbs, List.range_succ]
  · norm_num [DiscreteRandomVector.compute_CDF, weightedCountLE,
      fixtureProbs, List.range_succ]
  · norm_num [DiscreteRandomVector.compute_CDF, weightedCountLE,
      fixtureProbs, List.range_succ]

/-- C2: compute_moments(max_order) returns, per dimension, the
probability-weighted sums of sample powers of orders 1..max_order;
for the 1-D fixture the mean is 2.5 and the second raw moment 7.5, and for
the 2-D fixture the dimension-1 moments are 2.5, 7.5 and the dimension-2
moments 5.5, 31.5. -/
theorem C2_compute_moments :
    (∀ (rv : DiscreteRandomVector) (k q d : Nat), q < k → d < rv.dim →
      ((rv.compute_moments k).getD q []).getD d 0 =
        weightedPowerSum rv.samples rv.probabilities d (q + 1))
    ∧ DiscreteRandomVector.mk? fixture2dSamples fixtureProbs =
        .ok ⟨2, [[1, 4], [2, 5], [3, 6], [4, 7]], fixtureProbs⟩
    ∧ DiscreteRandomVector.compute_moments
        ⟨1, [[1], [2], [3], [4]], fixtureProbs⟩ 2 = [[5/2], [15/2]]
    ∧ DiscreteRandomVector.compute_moments
        ⟨2, [[1, 4], [2, 5], [3, 6], [4, 7]], fixtureProbs⟩ 2 =
        [[5/2, 11/2], [15/2, 63/2]] := by
  refine ⟨?_, ?_, ?_, ?_⟩
  · intro rv k q d hq hd
    rw [DiscreteRandomVector.compute_moments, getD_map_range _ _ _ _ hq,
      getD_map_range _ _ _ _ hd]
  · norm_num [DiscreteRandomVector.mk?, fixture2dSamples, fixtureProbs,
      probSumTolerance, SampleArray.numSamples, SampleArray.wellShaped,
      SampleArray.rows, SampleArray.inferredDim]
  · norm_num [DiscreteRandomVector.compute_moments, weightedPowerSum,
      fixtureProbs, List.range_succ]
  · norm_num [DiscreteRandomVector.compute_moments, weightedPowerSum,
      fixtureProbs, List.range_succ]

/-- C2 witness: the general moment characterization instantiated on the
1-D fixture at order 1, dimension 0. -/
theorem C2_compute_moments_witness :
    ((DiscreteRandomVector.compute_moments
        ⟨1, [[1], [2], [3], [4]], fixtureProbs⟩ 2).getD 0 []).getD 0 0 =
      weightedPowerSum [[1], [2], [3], [4]] fixtureProbs 0 1 :=
  C2_compute_moments.1 ⟨1, [[1], [2], [3], [4]], fixtureProbs⟩ 2 0 0
    (by decide) (by decide)

/-- C3: DiscreteRandomVector construction succeeds exactly when the
probability length matches the sample count, the probabilities sum to 1
within tolerance and are non-negative, and the sample array is well
shaped; every violation from the test suite fails (wrong length, wrong
sum, negative entry, short sample array, 2-D array against four
probabilities) and no object is produced, while the valid fixture
succeeds. -/
theorem C3_construction_validation :
    (∀ (samples : SampleArray) (probs : List ℚ),
      (∃ rv, DiscreteRandomVector.mk? samples probs = .ok rv) ↔
        (probs.length = samples.numSamples ∧
         |probs.sum - 1| ≤ probSumTolerance ∧
         probs.all (fun p => 0 ≤ p) = true ∧
         samples.wellShaped = true))
    ∧ (DiscreteRandomVector.mk? (.flat [1, 2, 3, 4])
        [1/4, 1/4, 1/2]).isOk = false
    ∧ (DiscreteRandomVector.mk? (.flat [1, 2, 3, 4])
        [1/4, 1/4, 1/4, 1/10]).isOk = false
    ∧ (DiscreteRandomVector.mk? (.flat [1, 2, 3, 4])
        [1/2, 1/2, 1/4, -1/4]).isOk = false
    ∧ (DiscreteRandomVector.mk? (.flat [1, 2, 3]) fixtureProbs).isOk = false
    ∧ (DiscreteRandomVector.mk? (.twoD [[1, 2], [3, 4]])
        fixtureProbs).isOk = false
    ∧ (DiscreteRandomVector.mk? fixture1dSamples fixtureProbs).isOk = true := by
  refine ⟨?_, ?_, ?_, ?_, ?_, ?_, ?_⟩
  · intro samples probs
    simp only [DiscreteRandomVector.mk?]
    split_ifs with h1 h2 h3 h4 <;> simp_all
  · norm_num [DiscreteRandomVector.mk?, SampleArray.numSamples, Except.isOk,
      Except.toBool]
  · norm_num [DiscreteRandomVector.mk?, SampleArray.numSamples,
      probSumTolerance, Except.isOk, Except.toBool, abs_le, lt_abs]
  · norm_num [DiscreteRandomVector.mk?, SampleArray.numSamples,
      probSumTolerance, Except.isOk, Except.toBool, abs_le, lt_abs]
  · norm_num [DiscreteRandomVector.mk?, SampleArray.numSamples, fixtureProbs,
      Except.isOk, Except.toBool]
  · norm_num [DiscreteRandomVector.mk?, SampleArray.numSamples, fixtureProbs,
      Except.isOk, Except.toBool]
  · norm_num [DiscreteRandomVector.mk?, fixture1dSamples, fixtureProbs,
      probSumTolerance, SampleArray.numSamples, SampleArray.wellShaped,
      Except.isOk, Except.toBool]

/-- C4: Gradient construction fails with a validation error whenever the
obj_weights vector does not have length 3 or the error metric name is not
recognized, and succeeds with default parameters. -/
theorem C4_gradient_validation :
    (Gradient.mk? none none).isOk = true
    ∧ (∀ w : List ℚ, w.length ≠ 3 → ∀ e : Option String,
        ∃ msg, Gradient.mk? (some w) e = .error msg)
    ∧ (∀ (ow : Option (List ℚ)) (e : String),
        e ∉ recognizedErrorNames →
        ∃ msg, Gradient.mk? ow (some e) = .error msg) := by
  refine ⟨by decide, ?_, ?_⟩
  · intro w hw e
    simp [Gradient.mk?, hw]
  · intro ow e he
    by_cases hw : (ow.getD defaultObjWeights).length = 3
    · exact ⟨"ValueError: unrecognized error metric name",
        by simp [Gradient.mk?, hw, he]⟩
    · exact ⟨"ValueError: obj_weights must have length 3",
        by simp [Gradient.mk?, hw]⟩

/-- C4 witness: a length-2 obj_weights vector is rejected, the
unrecognized error name from the test is rejected, and the defaults are
accepted. -/
theorem C4_gradient_validation_witness :
    (∃ msg, Gradient.mk? (some [1, 1]) none = .error msg)
    ∧ (∃ msg, Gradient.mk? none (some "test") = .error msg) :=
  ⟨C4_gradient_validation.2.1 [1, 1] (by decide) none,
   C4_gradient_validation.2.2 none "test" (by decide)⟩

/-- C8: loading the same persisted SROM parameter table into two fresh
SROM instances of the same size and dimension yields identical point
matrices and weight vectors, and identical moments, CDF values and
correlation matrices. -/
theorem C8_load_params_idempotent (size dim : Nat) (table : List (List ℚ))
    (s1 s2 : SROM)
    (h1 : SROM.load_params size dim table = .ok s1)
    (h2 : SROM.load_params size dim table = .ok s2) :
    s1.points = s2.points ∧ s1.weights = s2.weights
    ∧ (∀ k, s1.compute_moments k = s2.compute_moments k)
    ∧ (∀ grid, s1.compute_CDF grid = s2.compute_CDF grid)
    ∧ s1.compute_correlation_matrix = s2.compute_correlation_matrix := by
  have h : s1 = s2 := Except.ok.inj (h1.symm.trans h2)
  subst h
  exact ⟨rfl, rfl, fun _ => rfl, fun _ => rfl, rfl⟩

/-- C8 witness: a concrete 2 x 2 parameter table loads successfully and
the two resulting instances agree on parameters and statistics. -/
theorem C8_load_params_idempotent_witness :
    SROM.load_params 2 1 [[1, 1/2], [2, 1/2]] =
      .ok ⟨2, 1, [[1], [2]], [1/2, 1/2]⟩
    ∧ ((⟨2, 1, [[1], [2]], [1/2, 1/2]⟩ : SROM).points =
        (⟨2, 1, [[1], [2]], [1/2, 1/2]⟩ : SROM).points
      ∧ (⟨2, 1, [[1], [2]], [1/2, 1/2]⟩ : SROM).weights =
        (⟨2, 1, [[1], [2]], [1/2, 1/2]⟩ : SROM).weights
      ∧ (∀ k, SROM.compute_moments ⟨2, 1, [[1], [2]], [1/2, 1/2]⟩ k =
          SROM.compute_moments ⟨2, 1, [[1], [2]], [1/2, 1/2]⟩ k)
      ∧ (∀ grid, SROM.compute_CDF ⟨2, 1, [[1], [2]], [1/2, 1/2]⟩ grid =
          SROM.compute_CDF ⟨2, 1, [[1], [2]], [1/2, 1/2]⟩ grid)
      ∧ SROM.compute_correlation_matrix ⟨2, 1, [[1], [2]], [1/2, 1/2]⟩ =
          SROM.compute_correlation_matrix ⟨2, 1, [[1], [2]], [1/2, 1/2]⟩) :=
  have h : SROM.load_params 2 1 [[1, 1/2], [2, 1/2]] =
      .ok ⟨2, 1, [[1], [2]], [1/2, 1/2]⟩ := rfl
  ⟨h, C8_load_params_idempotent 2 1 _ _ _ h h⟩

/-- C6: generate_cdf_grids returns one column per target dimension, each
column holding cdf_grid_pts points evenly spaced from the per-dimension
minimum to the per-dimension maximum, and compare_CDFs evaluates both the
SROM CDF and the target CDF on that same grid. -/
theorem C6_generate_cdf_grids (t : Target) (pts i : Nat)
    (hi : i < t.dim) (h2 : 2 ≤ pts)
    (f g : List (List ℚ) → List (List ℚ)) :
    (Postprocessor.generate_cdf_grids t pts).length = t.dim
    ∧ ((Postprocessor.generate_cdf_grids t pts).getD i []).length = pts
    ∧ (∀ j, j < pts →
        ((Postprocessor.generate_cdf_grids t pts).getD i []).getD j 0 =
          t.mins.getD i 0 +
            j * (t.maxs.getD i 0 - t.mins.getD i 0) / ((pts : ℚ) - 1))
    ∧ ((Postprocessor.generate_cdf_grids t pts).getD i []).getD 0 0 =
        t.mins.getD i 0
    ∧ ((Postprocessor.generate_cdf_grids t pts).getD i []).getD (pts - 1) 0 =
        t.maxs.getD i 0
    ∧ Postprocessor.compareCDFs_data f g t =
        (Postprocessor.generate_cdf_grids t 1000,
         f (Postprocessor.generate_cdf_grids t 1000),
         g (Postprocessor.generate_cdf_grids t 1000)) := by
  have hcol : (Postprocessor.generate_cdf_grids t pts).getD i [] =
      linspace (t.mins.getD i 0) (t.maxs.getD i 0) pts := by
    unfold Postprocessor.generate_cdf_grids
    exact getD_map_range _ _ _ _ hi
  have hval : ∀ j, j < pts →
      (linspace (t.mins.getD i 0) (t.maxs.getD i 0) pts).getD j 0 =
        t.mins.getD i 0 +
          j * (t.maxs.getD i 0 - t.mins.getD i 0) / ((pts : ℚ) - 1) := by
    intro j hj
    unfold linspace
    exact getD_map_range _ _ _ _ hj
  have hpos : (0 : Nat) < pts := lt_of_lt_of_le (by norm_num) h2
  refine ⟨by simp [Postprocessor.generate_cdf_grids], ?_, ?_, ?_, ?_, rfl⟩
  · rw [hcol]; simp [linspace]
  · intro j hj; rw [hcol]; exact hval j hj
  · rw [hcol, hval 0 hpos]; simp
  · rw [hcol, hval (pts - 1) (Nat.sub_lt hpos (by norm_num))]
    have hcast : ((pts - 1 : Nat) : ℚ) = (pts : ℚ) - 1 := by
      rw [Nat.cast_sub hpos, Nat.cast_one]
    have hne : ((pts : ℚ) - 1) ≠ 0 := by
      have : (2 : ℚ) ≤ (pts : ℚ) := by exact_mod_cast h2
      intro hzero
      nlinarith
    rw [hcast]
    field_simp

/-- C6 witness: for a two-dimensional target with ranges 0..1 and 3..7 and
five grid points, the second column starts at 3 and ends at 7. -/
theorem C6_generate_cdf_grids_witness :
    ((Postprocessor.generate_cdf_grids ⟨2, [0, 3], [1, 7]⟩ 5).getD 1 []).getD
        0 0 = 3
    ∧ ((Postprocessor.generate_cdf_grids ⟨2, [0, 3], [1, 7]⟩ 5).getD 1
        []).getD 4 0 = 7 :=
  have h := C6_generate_cdf_grids ⟨2, [0, 3], [1, 7]⟩ 5 1 (by decide)
    (by decide) id id
  ⟨h.2.2.2.1, h.2.2.2.2.1⟩

lemma foldl_odInsert_fresh {β γ : Type} (F : Nat × γ → β) :
    ∀ (l : List (Nat × γ)) (acc : List (Nat × β)),
    (∀ p ∈ l, ∀ q ∈ acc, p.1 ≠ q.1) → (l.map Prod.fst).Nodup →
    l.foldl (fun a p => odInsert a p.1 (F p)) acc =
      acc ++ l.map (fun p => (p.1, F p)) := by
  intro l
  induction l with
  | nil => intro acc _ _; simp
  | cons hd tl ih =>
    intro acc h hnd
    rw [List.map_cons, List.nodup_cons] at hnd
    have hfresh : acc.any (fun q => q.1 = hd.1) = false := by
      simp only [List.any_eq_false, decide_eq_true_eq]
      intro q hq hqe
      exact h hd (List.mem_cons_self hd tl) q hq hqe.symm
    have hstep : odInsert acc hd.1 (F hd) = acc ++ [(hd.1, F hd)] := by
      unfold odInsert
      rw [hfresh]
      simp
    have hcompat : ∀ p ∈ tl, ∀ q ∈ acc ++ [(hd.1, F hd)], p.1 ≠ q.1 := by
      intro p hp q hq
      rcases List.mem_append.mp hq with hq' | hq'
      · exact h p (List.mem_cons_of_mem hd hp) q hq'
      · have hq1 : q.1 = hd.1 := by
          rcases List.mem_singleton.mp hq' with rfl; rfl
        rw [hq1]
        intro heq
        exact hnd.1 (heq ▸ List.mem_map_of_mem Prod.fst hp)
    rw [List.foldl_cons, hstep, ih (acc ++ [(hd.1, F hd)]) hcompat hnd.2]
    simp

/-- C7: compare_srom_CDFs computes the per-size CDFs by iterating the
size-to-SROM mapping in insertion order and renders the SROM series in the
key order of the resulting OrderedDict, which matches the insertion order
of the mapping passed in. -/
theorem C7_plot_order
    (size2srom : List (Nat × (List (List ℚ) → List (List ℚ))))
    (t : Target) (hnd : (size2srom.map Prod.fst).Nodup) :
    Postprocessor.plottedSizeOrder size2srom t = size2srom.map Prod.fst
    ∧ Postprocessor.sromCDFsOf size2srom t =
        size2srom.map
          (fun p => (p.1, p.2 (Postprocessor.generate_cdf_grids t 1000))) := by
  have h := foldl_odInsert_fresh (β := List (List ℚ))
    (γ := List (List ℚ) → List (List ℚ))
    (fun p => p.2 (Postprocessor.generate_cdf_grids t 1000)) size2srom []
    (by simp) hnd
  constructor
  · unfold Postprocessor.plottedSizeOrder Postprocessor.sromCDFsOf
    rw [h]
    simp [List.map_map]
  · unfold Postprocessor.sromCDFsOf
    rw [h]
    simp

/-- C7 witness: a concrete two-entry mapping with sizes 5 and 10 is
plotted in the order 5, 10. -/
theorem C7_plot_order_witness :
    Postprocessor.plottedSizeOrder [(5, id), (10, fun _ => [])]
      ⟨1, [0], [1]⟩ = [5, 10] :=
  (C7_plot_order [(5, id), (10, fun _ => [])] ⟨1, [0], [1]⟩ (by decide)).1

lemma buildPlotNames_none_error (v : String) (rest : List String) :
    Postprocessor.buildPlotNames none (v :: rest) =
      .error "TypeError: unsupported operand types for NoneType and str" := by
  simp [Postprocessor.buildPlotNames, pythonStrAdd]

lemma buildPlotNames_some_ok (p : String) (names : List String) :
    Postprocessor.buildPlotNames (some p) names =
      .ok (names.map (fun v => ((p ++ ("_" ++ v ++ ".pdf")).replace "$" ""))) := by
  induction names with
  | nil => rfl
  | cons v rest ih =>
    simp [Postprocessor.buildPlotNames, pythonStrAdd, ih]

/-- C9: compare_CDFs completes only when saveFig is true: with
saveFig = False the plot name is None and the per-dimension concatenation
of the plot name fails (a TypeError, or the earlier name-validation error),
so every call with saveFig = False on a target of positive dimension
fails, while saveFig = True with default variable names completes. -/
theorem C9_saveFig_precondition :
    (∀ (t : Target) (v pd ps : String) (vn : Option (List String)),
      0 < t.dim →
      ∃ msg, Postprocessor.compare_CDFs_run t v pd ps false vn = .error msg)
    ∧ (∀ (t : Target) (v pd ps : String),
      ∃ out, Postprocessor.compare_CDFs_run t v pd ps true none = .ok out) := by
  constructor
  · intro t v pd ps vn hdim
    have herr : ∀ names : List String, names.length = t.dim →
        ∃ msg, Postprocessor.buildPlotNames none names = .error msg := by
      intro names hlen
      cases names with
      | nil =>
        rw [← hlen] at hdim
        simp at hdim
      | cons a l => exact ⟨_, buildPlotNames_none_error a l⟩
    cases vn with
    | none =>
      obtain ⟨msg, hmsg⟩ := herr
        ((List.range t.dim).map (fun i =>
          if t.dim = 1 then v else v ++ "_" ++ toString (i + 1)))
        (by simp)
      exact ⟨msg, by
        simp [Postprocessor.compare_CDFs_run, Postprocessor.getVariableNames,
          hmsg]⟩
    | some names =>
      by_cases hlen : names.length = t.dim
      · obtain ⟨msg, hmsg⟩ := herr names hlen
        exact ⟨msg, by
          simp [Postprocessor.compare_CDFs_run,
            Postprocessor.getVariableNames, hlen, hmsg]⟩
      · exact ⟨"ValueError: Wrong number of variable names provided", by
          simp [Postprocessor.compare_CDFs_run,
            Postprocessor.getVariableNames, hlen]⟩
  · intro t v pd ps
    refine ⟨((List.range t.dim).map (fun i =>
        if t.dim = 1 then v else v ++ "_" ++ toString (i + 1))).map
          (fun w => (((pd ++ "/" ++ ps) ++ ("_" ++ w ++ ".pdf")).replace
            "$" "")), ?_⟩
    simp [Postprocessor.compare_CDFs_run, Postprocessor.getVariableNames,
      buildPlotNames_some_ok]

/-- C9 witness: on a one-dimensional target, the call with
saveFig = False fails and the call with saveFig = True succeeds. -/
theorem C9_saveFig_precondition_witness :
    (∃ msg, Postprocessor.compare_CDFs_run ⟨1, [0], [1]⟩ "x" "."
      "CDFcompare" false none = .error msg)
    ∧ (∃ out, Postprocessor.compare_CDFs_run ⟨1, [0], [1]⟩ "x" "."
      "CDFcompare" true none = .ok out) :=
  ⟨C9_saveFig_precondition.1 ⟨1, [0], [1]⟩ "x" "." "CDFcompare" none
    (by decide),
   C9_saveFig_precondition.2 ⟨1, [0], [1]⟩ "x" "." "CDFcompare"⟩

/-- C10: the variable-name step shared by compare_CDFs and
compare_srom_CDFs raises a validation error exactly when an explicit name
list of the wrong length is provided; when no list is given, default names
are generated (the bare variable name for dimension 1, the indexed names
otherwise) and no error is raised. -/
theorem C10_variablenames_validation :
    (∀ (v : String) (dim : Nat) (vn : Option (List String)),
      (∃ msg, Postprocessor.getVariableNames v dim vn = .error msg) ↔
        ∃ names, vn = some names ∧ names.length ≠ dim)
    ∧ (∀ (v : String) (dim : Nat),
        Postprocessor.getVariableNames v dim none =
          .ok ((List.range dim).map (fun i =>
            if dim = 1 then v else v ++ "_" ++ toString (i + 1))))
    ∧ Postprocessor.getVariableNames "x" 1 none = .ok ["x"]
    ∧ Postprocessor.getVariableNames "x" 3 none =
        .ok ["x_1", "x_2", "x_3"] := by
  refine ⟨?_, fun _ _ => rfl, rfl, rfl⟩
  intro v dim vn
  cases vn with
  | none => simp [Postprocessor.getVariableNames]
  | some names =>
    by_cases h : names.length = dim <;>
      simp [Postprocessor.getVariableNames, h]

/-- C5: the compare_srom_CDFs call made by the example driver, whose
keyword arguments include ylimits, xticks, cdfylabel, xaxispadding and the
three font sizes, is rejected because none of these are parameters of
compare_srom_CDFs; a call restricted to the parameters the method does
declare is accepted. -/
theorem C5_example_call_rejected :
    Postprocessor.acceptsSromCDFsCall phm18ExampleKwargs = false
    ∧ Postprocessor.compare_srom_CDFs_keywords.contains "xticks" = false
    ∧ Postprocessor.compare_srom_CDFs_keywords.contains "ylimits" = false
    ∧ Postprocessor.compare_srom_CDFs_keywords.contains "axisfontsize"
        = false
    ∧ Postprocessor.compare_srom_CDFs_keywords.contains "labelfontsize"
        = false
    ∧ Postprocessor.compare_srom_CDFs_keywords.contains "legendfontsize"
        = false
    ∧ Postprocessor.acceptsSromCDFsCall
        ["plotdir", "plotsuffix", "variablenames", "xlimits", "showFig",
         "saveFig"] = true := by
  decide

end SROMPy
